import Mathlib

/-!
Verification of the apiduct tunnel system (api-bridge and api-offramp).

The Go sources are shallowly embedded: byte slices become lists of naturals
below 256, per-connection control flow becomes pure functions from the bytes
that arrive on the connection to an explicit outcome record, and the loops of
the supervisors become structural recursion over the finite list of events
they react to.  Library calls (crypto/sha256, net, net/http) are treated as
opaque inputs: the digest of the configured PSK is a parameter, the network is
the list of bytes or events fed to the embedded function.
-/

/-- Byte-wise comparison loop of compareHashes (src/api-bridge/main.go):
scans left to right and returns false at the first mismatching index.  It is
called only after the length guard, so the arms where one list runs out first
are unreachable from compareHashes. -/
def compareHashesAux : List Nat → List Nat → Bool
  | [], _ => true
  | _ :: _, [] => true
  | x :: xs, y :: ys => if x ≠ y then false else compareHashesAux xs ys

/-- compareHashes from src/api-bridge/main.go lines 221-231: a length guard
followed by the byte-wise loop. -/
def compareHashes (a b : List Nat) : Bool :=
  if a.length ≠ b.length then false else compareHashesAux a b

/-- Number of loop iterations the byte-wise loop of compareHashes executes on
the given inputs: the cost model for the timing claim.  The iteration that
detects the first mismatch is counted, after which the loop returns. -/
def compareHashesIters : List Nat → List Nat → Nat
  | [], _ => 0
  | _ :: _, [] => 0
  | x :: xs, y :: ys => if x ≠ y then 1 else 1 + compareHashesIters xs ys

/-- Result of the bridge handling one incoming tunnel connection: the bytes it
writes back on the connection, whether the connection was installed as the
active tunnel connection, and whether it was closed. -/
structure AcceptOutcome where
  reply : List Nat
  installed : Bool
  closed : Bool
deriving DecidableEq

/-- Bridge-side handling of one incoming tunnel connection
(acceptTunnelConnections, src/api-bridge/main.go lines 186-218).  expected
stands for the 32-byte digest sha256.Sum256 of the configured PSK (the library
digest is treated as an opaque 32-byte value); received is the byte stream
arriving on the connection.  The code reads exactly 32 bytes with io.ReadFull,
verifies them with compareHashes, and on success writes the single byte 0 and
stores the connection; on a short read or a mismatch it closes the connection
without writing anything and never stores it.  The write of the success byte
is assumed to succeed (its failure branch also closes without installing). -/
def acceptTunnelConn (expected received : List Nat) : AcceptOutcome :=
  if received.length < 32 then ⟨[], false, true⟩
  else if compareHashes (received.take 32) expected then ⟨[0], true, false⟩
  else ⟨[], false, true⟩

/-- Outcome of the offramp reading the one-byte authentication response. -/
inductive DialResult
  | readError
  | authFailed
  | ok
deriving DecidableEq

/-- Offramp-side status handling after sending the digest
(createTunnelConnection, src/api-offramp/main.go lines 323-334): read exactly
one byte with io.ReadFull; a short read is an error, a nonzero byte is an
authentication failure, the zero byte is success. -/
def offrampHandshake (response : List Nat) : DialResult :=
  match response with
  | [] => .readError
  | b :: _ => if b ≠ 0 then .authFailed else .ok

theorem compareHashesAux_iff (a : List Nat) : ∀ b : List Nat,
    a.length = b.length → (compareHashesAux a b = true ↔ a = b) := by
  induction a with
  | nil =>
    intro b h
    cases b with
    | nil => simp [compareHashesAux]
    | cons y ys => simp at h
  | cons x xs ih =>
    intro b h
    cases b with
    | nil => simp at h
    | cons y ys =>
      simp only [List.length_cons] at h
      have hlen : xs.length = ys.length := by omega
      by_cases hxy : x = y
      · subst hxy
        simp [compareHashesAux, ih ys hlen]
      · simp [compareHashesAux, hxy]

theorem compareHashes_iff (a b : List Nat) : compareHashes a b = true ↔ a = b := by
  unfold compareHashes
  by_cases h : a.length = b.length
  · simp only [h, ne_eq, not_true_eq_false, if_false]
    exact compareHashesAux_iff a b h
  · simp only [ne_eq, h, not_false_eq_true, if_true]
    constructor
    · intro hc; cases hc
    · intro hab; exact absurd (congrArg List.length hab) h

/-- Claim C1: on every tunnel connection whose first 32 received bytes differ
from the SHA-256 digest of the configured PSK, the bridge rejects the
handshake and closes the connection, sends nothing back, and never installs
the connection as the active tunnel connection — hence no request or stream
data on that connection is ever processed, since the HTTP handler only reads
from the installed connection. -/
theorem bridge_rejects_bad_proof (expected received : List Nat)
    (h : received.take 32 ≠ expected) :
    acceptTunnelConn expected received = ⟨[], false, true⟩ := by
  unfold acceptTunnelConn
  by_cases hlen : received.length < 32
  · simp [hlen]
  · have hc : compareHashes (received.take 32) expected ≠ true := by
      intro hc
      exact h ((compareHashes_iff _ _).mp hc)
    simp [hlen, hc]

/-- Witness for C1 at a concrete bad proof. -/
theorem bridge_rejects_bad_proof_witness :
    (List.replicate 40 4).take 32 ≠ List.replicate 32 3 ∧
    acceptTunnelConn (List.replicate 32 3) (List.replicate 40 4) = ⟨[], false, true⟩ :=
  ⟨by decide, bridge_rejects_bad_proof (List.replicate 32 3) (List.replicate 40 4) (by decide)⟩

/-- Claim C2 counterexample: on a rejected handshake the bridge closes the
connection having written no bytes at all, so no nonzero status byte is ever
sent, contradicting the claim that a nonzero status reply precedes the
close. -/
theorem handshake_reject_sends_no_byte :
    (acceptTunnelConn (List.replicate 32 1) (List.replicate 32 2)).closed = true ∧
    (acceptTunnelConn (List.replicate 32 1) (List.replicate 32 2)).reply = [] := by
  constructor
  · decide
  · decide

/-- Claim C2 as amended: on acceptance the bridge sends exactly one status
byte, the zero byte, and leaves the connection open; on rejection it closes
the connection without sending any status byte.  The dialing offramp treats
status byte 0 as success, any nonzero status byte as authentication failure,
and a missing byte as a read error. -/
theorem handshake_status_byte_contract (expected received : List Nat) :
    (acceptTunnelConn expected received).reply
      = (if (acceptTunnelConn expected received).installed then [0] else []) ∧
    (acceptTunnelConn expected received).closed
      = !(acceptTunnelConn expected received).installed ∧
    (∀ b rest, offrampHandshake (b :: rest)
      = if b = 0 then DialResult.ok else DialResult.authFailed) ∧
    offrampHandshake [] = DialResult.readError := by
  refine ⟨?_, ?_, ?_, rfl⟩
  · unfold acceptTunnelConn
    by_cases hlen : received.length < 32
    · simp [hlen]
    · by_cases hc : compareHashes (received.take 32) expected
      · simp [hlen, hc]
      · simp [hlen, hc]
  · unfold acceptTunnelConn
    by_cases hlen : received.length < 32
    · simp [hlen]
    · by_cases hc : compareHashes (received.take 32) expected
      · simp [hlen, hc]
      · simp [hlen, hc]
  · intro b rest
    unfold offrampHandshake
    by_cases hb : b = 0
    · simp [hb]
    · simp [hb]

/-- Claim C3 counterexample: two pairs of equal-length inputs on which the
byte-wise comparison loop executes a different number of iterations depending
on the position of the first mismatching byte (1 iteration for a mismatch at
index 0, 32 iterations for a mismatch at index 31), so the comparison is not
constant-time. -/
theorem compareHashes_iters_depend_on_position :
    (List.replicate 32 0).length = (1 :: List.replicate 31 0).length ∧
    (List.replicate 32 0).length = (List.replicate 31 0 ++ [1]).length ∧
    compareHashesIters (List.replicate 32 0) (1 :: List.replicate 31 0) = 1 ∧
    compareHashesIters (List.replicate 32 0) (List.replicate 31 0 ++ [1]) = 32 := by
  refine ⟨by decide, by decide, by decide, by decide⟩

/-- Claim C3 as amended: compareHashes correctly decides equality of the two
byte sequences, but its loop exits at the first mismatching byte, so its
iteration count on equal-length inputs depends on the position of the first
mismatch: the comparison is byte-wise with early exit, not constant-time. -/
theorem compareHashes_correct_not_constant_time :
    (∀ a b : List Nat, compareHashes a b = true ↔ a = b) ∧
    (∃ a b c d : List Nat, a.length = b.length ∧ c.length = d.length ∧
      a.length = c.length ∧ compareHashesIters a b ≠ compareHashesIters c d) := by
  refine ⟨compareHashes_iff, ⟨List.replicate 32 0, 1 :: List.replicate 31 0,
    List.replicate 32 0, List.replicate 31 0 ++ [1], by decide, by decide, by decide, by decide⟩⟩

/-- Delay, in milliseconds, that the offramp sleeps before retry attempt n of
the tunnel connection (manageTunnelConnection, src/api-offramp/main.go lines
124-151): every failure path executes time.Sleep of 5 seconds, independent of
the attempt number and with no stored backoff state. -/
def offrampRetryDelayMs (_attempt : Nat) : Nat := 5000

/-- Claim C6 counterexample: the retry delay sequence is constant, i.e. it is
a fixed retry interval (so there is no doubling from a base delay and no
jitter), contradicting the claim of exponential backoff that is not a fixed
retry interval. -/
theorem retry_delay_is_fixed :
    (¬ ∃ n m, offrampRetryDelayMs n ≠ offrampRetryDelayMs m) ∧
    offrampRetryDelayMs 2 ≠ 2 * offrampRetryDelayMs 1 := by
  constructor
  · rintro ⟨n, m, h⟩
    exact h rfl
  · decide

/-- Claim C6 as amended: the offramp waits a fixed 5000 ms between
consecutive failed tunnel connection attempts; the delay sequence is trivially
non-decreasing and bounded above by 5000 ms, and there is no backoff state to
reset after a successful authentication. -/
theorem retry_delay_constant (n m : Nat) :
    offrampRetryDelayMs n = 5000 ∧
    offrampRetryDelayMs n ≤ offrampRetryDelayMs (n + 1) ∧
    offrampRetryDelayMs n ≤ 5000 ∧
    offrampRetryDelayMs n = offrampRetryDelayMs m := by
  exact ⟨rfl, le_refl _, le_refl _, rfl⟩

/-- Outcome of the offramp health-check goroutine after reacting to a finite
list of probe results: how many probes it actually executed, whether it closed
the stored target connection, and whether the loop is still running. -/
structure HealthOutcome where
  probesRun : Nat
  targetClosed : Bool
  loopRunning : Bool
deriving DecidableEq

/-- Health-check goroutine of manageTargetConnection (src/api-offramp/main.go
lines 174-236), fed the outcome of each one-second probe in order (true: the
dial, the HEAD request, and a 2xx response all succeeded; false: any of the
failure branches, each of which closes the stored target connection and
returns from the goroutine).  On a successful probe the loop continues; on the
first failed probe it closes the target connection and exits, so no later
probe in the list is ever executed. -/
def runHealthLoop : List Bool → HealthOutcome
  | [] => ⟨0, false, true⟩
  | ok :: rest =>
    if ok then
      let r := runHealthLoop rest
      ⟨r.probesRun + 1, r.targetClosed, r.loopRunning⟩
    else ⟨1, true, false⟩

/-- Claim C7 counterexample: after the probe sequence failure-then-success the
monitor has executed only the first probe, closed the target connection, and
exited its loop; the subsequent successful probe is never executed, so no
transition back to a healthy status ever happens, and the effective failure
threshold is hard-wired to one, not configurable. -/
theorem health_monitor_dies_on_first_failure :
    runHealthLoop [false, true] = ⟨1, true, false⟩ ∧
    runHealthLoop [true, false, true] = ⟨2, true, false⟩ := by
  constructor
  · decide
  · decide

/-- Claim C7 as amended: a single failed probe (threshold hard-wired to one,
not configurable) closes the stored target connection and terminates the
health loop permanently; probes after the first failure are never executed,
so there is no transition back to a healthy status; while all probes succeed
the loop keeps running with the connection open.  (The forwarding path in
handleTunnelTraffic dials the target per request via its own HTTP client and
never consults this monitor, so there is no fail-fast gating either.) -/
theorem health_loop_characterization (ps : List Bool) :
    (runHealthLoop ps).targetClosed = ps.any (fun b => !b) ∧
    (runHealthLoop ps).loopRunning = ps.all (fun b => b) ∧
    (runHealthLoop ps).probesRun
      = (ps.takeWhile (fun b => b)).length + (if ps.all (fun b => b) then 0 else 1) := by
  induction ps with
  | nil => exact ⟨rfl, rfl, rfl⟩
  | cons ok rest ih =>
    by_cases hok : ok
    · subst hok
      refine ⟨?_, ?_, ?_⟩
      · simpa [runHealthLoop] using ih.1
      · simpa [runHealthLoop] using ih.2.1
      · simp only [runHealthLoop, if_true, List.takeWhile, List.all_cons, Bool.true_and]
        simp [ih.2.2]
        omega
    · simp only [Bool.not_eq_true] at hok
      subst hok
      refine ⟨?_, ?_, ?_⟩
      · simp [runHealthLoop]
      · simp [runHealthLoop]
      · simp [runHealthLoop, List.takeWhile]

/-- Reply of the bridge HTTP handler to an external client: either an error
status generated by the bridge itself, or the proxied response status relayed
from the tunnel. -/
inductive BridgeReply
  | errorStatus (status : Nat)
  | proxied (status : Nat)
deriving DecidableEq

/-- The status code the bridge uses when no tunnel connection is available:
http.StatusVariantAlsoNegotiates (src/api-bridge/main.go line 103). -/
def noTunnelStatus : Nat := 506

/-- The status code the bridge uses when forwarding or reading the response
fails: http.StatusBadGateway. -/
def badGatewayStatus : Nat := 502

/-- The external HTTP handler of the bridge (httpMux.HandleFunc,
src/api-bridge/main.go lines 100-133): with no tunnel connection installed it
immediately replies with noTunnelStatus without touching the tunnel; otherwise
it writes the request to the tunnel (forwardOk tells whether that write
succeeded), reads one response back (readOk, with respStatus its status code),
and relays the response, using badGatewayStatus for either failure. -/
def bridgeHandle (connected forwardOk readOk : Bool) (respStatus : Nat) : BridgeReply :=
  if !connected then .errorStatus noTunnelStatus
  else if !forwardOk then .errorStatus badGatewayStatus
  else if !readOk then .errorStatus badGatewayStatus
  else .proxied respStatus

/-- The gateway/service-unavailable class of HTTP statuses named by the spec:
502 Bad Gateway, 503 Service Unavailable, 504 Gateway Timeout. -/
def isUnavailableClass (status : Nat) : Bool :=
  status = 502 || status = 503 || status = 504

/-- Claim C8 counterexample: with no tunnel installed the bridge replies with
status 506 (Variant Also Negotiates), which is not in the gateway/service-
unavailable class, contradicting the claim that the error is a
Service-Unavailable-class status. -/
theorem no_tunnel_reply_is_506 :
    bridgeHandle false true true 200 = .errorStatus 506 ∧
    isUnavailableClass 506 = false := by
  constructor
  · decide
  · decide

/-- Claim C8 as amended: for every external HTTP request received while no
tunnel connection is installed, the bridge responds immediately — the reply
does not depend on any tunnel interaction — with the fixed HTTP status 506
(Variant Also Negotiates), a 5xx status that is not in the gateway/
service-unavailable class. -/
theorem no_tunnel_immediate_506 (forwardOk readOk : Bool) (respStatus : Nat) :
    bridgeHandle false forwardOk readOk respStatus = .errorStatus noTunnelStatus ∧
    noTunnelStatus = 506 ∧
    500 ≤ noTunnelStatus ∧ noTunnelStatus < 600 ∧
    isUnavailableClass noTunnelStatus = false := by
  exact ⟨rfl, rfl, by decide, by decide, by decide⟩

/-- The request the offramp dispatches to the target, as far as the wire is
concerned: its method, its request URI, and its body bytes. -/
structure ForwardedRequest where
  method : String
  uri : String
  body : List Nat
deriving DecidableEq

/-- How handleTunnelTraffic (src/api-offramp/main.go lines 245-298) builds the
request for the target from the request read off the tunnel: the target URL is
built from req.URL.Path alone, so the query string of the original URL is not
part of it; the method and the body reader are passed through unchanged (and
the headers are copied, not modelled here). -/
def buildTargetRequest (method path _query : String) (body : List Nat) : ForwardedRequest :=
  ⟨method, path, body⟩

/-- The request URI of the original request as the external caller sent it:
path plus, when nonempty, the question mark and the query string. -/
def originalRequestURI (path query : String) : String :=
  if query = "" then path else path ++ "?" ++ query

/-- Claim C9, evaluated at the failing input: for a request GET /a?x=1 with
body [104, 105], the request the offramp builds for the target has URI /a —
the query string x=1 is dropped, so the request reaching the target is not
byte-identical to the one the external caller sent. -/
theorem query_string_dropped :
    buildTargetRequest "GET" "/a" "x=1" [104, 105] = ⟨"GET", "/a", [104, 105]⟩ ∧
    originalRequestURI "/a" "x=1" = "/a?x=1" ∧
    ("/a" : String) ≠ "/a?x=1" := by
  refine ⟨rfl, rfl, by decide⟩

/-- One mutation of the bridge field TunnelConnection.conn. -/
inductive ConnOp
  | install (id : Nat)
  | closeConn
deriving DecidableEq

/-- The bridge field TunnelConnection.conn, abstracted to whether it holds a
connection (identified by id, with a flag recording whether that connection
has been closed) or is still nil. -/
inductive ConnSlot
  | noConn
  | held (id : Nat) (closed : Bool)
deriving DecidableEq

/-- The two mutations the bridge source performs on TunnelConnection.conn:
install (acceptTunnelConnections, src/api-bridge/main.go lines 209-215) closes
any previously held connection and stores the new one; closeConn
(TunnelConnection.Close, lines 52-56) closes the held connection but leaves
the field set.  Neither ever writes nil back into the field. -/
def connStep : ConnSlot → ConnOp → ConnSlot
  | _, .install id => .held id false
  | .noConn, .closeConn => .noConn
  | .held id _, .closeConn => .held id true

/-- TunnelConnection.IsConnected (src/api-bridge/main.go lines 58-62): true
exactly when the conn field is non-nil, regardless of whether the held
connection has been closed. -/
def ConnSlot.isConnected : ConnSlot → Bool
  | .noConn => false
  | .held _ _ => true

/-- The conn field after a sequence of mutations, starting from the zero-value
TunnelConnection created in main (nil field). -/
def runConnOps (ops : List ConnOp) : ConnSlot :=
  ops.foldl connStep .noConn

theorem connStep_keeps_connected (s : ConnSlot) (op : ConnOp)
    (h : s.isConnected = true) : (connStep s op).isConnected = true := by
  cases op with
  | install id => cases s with
    | noConn => rfl
    | held j c => rfl
  | closeConn =>
    cases s with
    | noConn => cases h
    | held id c => rfl

theorem foldl_connStep_keeps_connected (ops : List ConnOp) :
    ∀ s : ConnSlot, s.isConnected = true →
      (ops.foldl connStep s).isConnected = true := by
  induction ops with
  | nil => intro s h; exact h
  | cons op rest ih =>
    intro s h
    exact ih (connStep s op) (connStep_keeps_connected s op h)

/-- Claim C10: the bridge starts with no tunnel connection (IsConnected is
false, so the no-tunnel error branch is reachable), and after any sequence of
the mutations the source performs on the field — installs and closes — that
contains at least one install, the field is non-nil and IsConnected returns
true, even if the held connection has since been closed or replaced: no
operation ever writes nil back, so the no-tunnel branch is reachable only
before the first tunnel connection is accepted. -/
theorem tunnel_conn_never_cleared (ops : List ConnOp)
    (h : ∃ id, ConnOp.install id ∈ ops) :
    (runConnOps []).isConnected = false ∧
    (runConnOps ops).isConnected = true := by
  refine ⟨rfl, ?_⟩
  obtain ⟨id, hmem⟩ := h
  unfold runConnOps
  induction ops with
  | nil => cases hmem
  | cons op rest ih =>
    rcases List.mem_cons.mp hmem with hop | htail
    · subst hop
      exact foldl_connStep_keeps_connected rest (connStep .noConn (.install id)) rfl
    · cases op with
      | install j =>
        exact foldl_connStep_keeps_connected rest (connStep .noConn (.install j)) rfl
      | closeConn => exact ih htail

/-- Witness for C10 at a concrete operation sequence: install connection 7,
then close it; the field still reports connected. -/
theorem tunnel_conn_never_cleared_witness :
    (∃ id, ConnOp.install id ∈ [ConnOp.install 7, ConnOp.closeConn]) ∧
    (runConnOps []).isConnected = false ∧
    (runConnOps [ConnOp.install 7, ConnOp.closeConn]).isConnected = true :=
  ⟨⟨7, by decide⟩,
    tunnel_conn_never_cleared [ConnOp.install 7, ConnOp.closeConn] ⟨7, by decide⟩⟩

/-- One atomic operation on the shared tunnel connection of the bridge while
several external requests are in flight.  The mutex in TunnelConnection
serializes individual Write and Read calls but nothing associates a response
with the handler that wrote the matching request. -/
inductive TunnelAction
  | write (h : Nat)
  | serve
  | read (h : Nat)
deriving DecidableEq

/-- State of the shared tunnel while concurrent bridge handlers use it:
requests written but not yet served by the offramp (in write order), responses
produced but not yet read (in production order), and which handler received
the response produced for which request. -/
structure TunnelRun where
  pending : List Nat
  responses : List Nat
  delivered : List (Nat × Nat)
deriving DecidableEq

/-- Semantics of the bridge handler code (httpMux.HandleFunc,
src/api-bridge/main.go lines 100-133) over the shared connection: write h is
handler h writing its serialized request through the mutex-guarded Write;
serve is the offramp (handleTunnelTraffic, src/api-offramp/main.go lines
245-298) reading the oldest unserved request off the stream and writing its
response back; read h is handler h consuming the oldest unread response bytes
via http.ReadResponse — the connection is a plain byte stream, so whichever
handler reads first gets whichever response is first, with no correlation. -/
def stepTunnel (s : TunnelRun) : TunnelAction → TunnelRun
  | .write h => { s with pending := s.pending ++ [h] }
  | .serve =>
    match s.pending with
    | [] => s
    | r :: rest => { s with pending := rest, responses := s.responses ++ [r] }
  | .read h =>
    match s.responses with
    | [] => s
    | r :: rest => { s with responses := rest, delivered := s.delivered ++ [(h, r)] }

/-- Run a schedule of operations on the shared tunnel from the empty state. -/
def runTunnel (acts : List TunnelAction) : TunnelRun :=
  acts.foldl stepTunnel ⟨[], [], []⟩

/-- Claim C5 counterexample: with two concurrent requests (handlers 0 and 1,
each writing its request before reading, both requests served in order), the
schedule in which handler 1 reads first delivers the response produced for
request 0 to caller 1 and the response produced for request 1 to caller 0:
cross-talk between the two exchanges on the one shared connection. -/
theorem concurrent_requests_cross_talk :
    (runTunnel [TunnelAction.write 0, TunnelAction.write 1, TunnelAction.serve,
      TunnelAction.serve, TunnelAction.read 1, TunnelAction.read 0]).delivered
      = [(1, 0), (0, 1)] ∧ (0 : Nat) ≠ 1 := by
  constructor
  · decide
  · decide

/-- Claim C5 as amended: a handler receives whichever response is the oldest
unread one at the moment it reads, so each caller receives exactly its own
response only when the exchanges do not overlap: when each request is written,
served, and its response read before the next request starts, every caller
gets the response produced for its own request.  Under overlapping schedules
the responses can be swapped between callers. -/
theorem serialized_requests_no_cross_talk (i j : Nat) :
    (runTunnel [TunnelAction.write i, TunnelAction.serve, TunnelAction.read i,
      TunnelAction.write j, TunnelAction.serve, TunnelAction.read j]).delivered
      = [(i, i), (j, j)] := rfl

/-- Modelled from the spec: the Frame Codec of the design (section 4.2 and the
frame wire format of section 6) is absent from the source tree — the source
forwards raw HTTP bytes over the tunnel without any framing — so the frame
type is taken from the words of the spec: eight distinct frame type codes. -/
inductive FrameType
  | requestHeader
  | requestBodyChunk
  | requestEnd
  | responseHeader
  | responseBodyChunk
  | responseEnd
  | cancel
  | errorFrame
deriving DecidableEq

/-- Modelled from the spec: the one-byte code of each frame type.  The spec
fixes eight distinct codes but not their numeric values; 0 through 7, in the
order the spec lists the types. -/
def FrameType.code : FrameType → Nat
  | .requestHeader => 0
  | .requestBodyChunk => 1
  | .requestEnd => 2
  | .responseHeader => 3
  | .responseBodyChunk => 4
  | .responseEnd => 5
  | .cancel => 6
  | .errorFrame => 7

/-- Modelled from the spec: the inverse mapping from a received frame type
byte to the frame type; any other byte is a protocol error. -/
def FrameType.ofCode : Nat → Option FrameType
  | 0 => some .requestHeader
  | 1 => some .requestBodyChunk
  | 2 => some .requestEnd
  | 3 => some .responseHeader
  | 4 => some .responseBodyChunk
  | 5 => some .responseEnd
  | 6 => some .cancel
  | 7 => some .errorFrame
  | _ => none

/-- Modelled from the spec: a Frame is a correlation identifier (8 bytes on
the wire), a frame type (1 byte), and a payload (length-prefixed with 4
bytes). -/
structure Frame where
  correlationID : Nat
  frameType : FrameType
  payload : List Nat
deriving DecidableEq

/-- Big-endian encoding of a natural into w bytes: the low w bytes of n, most
significant first. -/
def natToBytes : Nat → Nat → List Nat
  | 0, _ => []
  | w + 1, n => natToBytes w (n / 256) ++ [n % 256]

/-- Big-endian decoding of a byte sequence into a natural. -/
def bytesToNat (bs : List Nat) : Nat :=
  bs.foldl (fun acc b => acc * 256 + b) 0

/-- Modelled from the spec: encoding of a Frame into the wire byte sequence
correlationID (8 bytes), frameType (1 byte), length (4 bytes), payload
(length bytes). -/
def encodeFrame (f : Frame) : List Nat :=
  natToBytes 8 f.correlationID
    ++ f.frameType.code :: (natToBytes 4 f.payload.length ++ f.payload)

/-- Modelled from the spec: decoding of one Frame from the front of a byte
sequence, returning the frame and the remaining bytes; a short header, an
unknown frame type byte, or a truncated payload decode to none. -/
def decodeFrame (bs : List Nat) : Option (Frame × List Nat) :=
  if bs.length < 13 then none
  else
    match FrameType.ofCode (bytesToNat ((bs.drop 8).take 1)) with
    | none => none
    | some ft =>
      let len := bytesToNat ((bs.drop 9).take 4)
      if (bs.drop 13).length < len then none
      else some (⟨bytesToNat (bs.take 8), ft, (bs.drop 13).take len⟩, (bs.drop 13).drop len)

theorem natToBytes_length (w : Nat) : ∀ n, (natToBytes w n).length = w := by
  induction w with
  | zero => intro n; rfl
  | succ w ih => intro n; simp [natToBytes, ih]

theorem bytesToNat_append_single (xs : List Nat) (b : Nat) :
    bytesToNat (xs ++ [b]) = bytesToNat xs * 256 + b := by
  unfold bytesToNat
  rw [List.foldl_append]
  rfl

theorem bytesToNat_natToBytes (w : Nat) :
    ∀ n, bytesToNat (natToBytes w n) = n % 256 ^ w := by
  induction w with
  | zero => intro n; simp [natToBytes, bytesToNat, Nat.mod_one]
  | succ w ih =>
    intro n
    rw [natToBytes, bytesToNat_append_single, ih, pow_succ', Nat.mod_mul]
    rw [Nat.mul_comm, Nat.add_comm]

theorem bytesToNat_single (b : Nat) : bytesToNat [b] = b := by
  simp [bytesToNat]

theorem ofCode_code (t : FrameType) : FrameType.ofCode t.code = some t := by
  cases t <;> rfl

theorem decodeFrame_layout (cid : Nat) (ft : FrameType) (P rest : List Nat)
    (hcid : cid < 2 ^ 64) (hP : P.length < 2 ^ 32) :
    decodeFrame (natToBytes 8 cid ++ ft.code :: (natToBytes 4 P.length ++ (P ++ rest)))
      = some (⟨cid, ft, P⟩, rest) := by
  set A := natToBytes 8 cid with hA
  set L := natToBytes 4 P.length with hL
  set bs := A ++ ft.code :: (L ++ (P ++ rest)) with hbs
  have hAlen : A.length = 8 := natToBytes_length 8 cid
  have hLlen : L.length = 4 := natToBytes_length 4 P.length
  have hbs9 : bs = (A ++ [ft.code]) ++ (L ++ (P ++ rest)) := by
    simp [hbs, List.append_assoc]
  have hbs13 : bs = ((A ++ [ft.code]) ++ L) ++ (P ++ rest) := by
    simp [hbs, List.append_assoc]
  have hlen : bs.length = 13 + (P.length + rest.length) := by
    simp [hbs, hAlen, hLlen]
    omega
  have htake8 : bs.take 8 = A := List.take_left' hAlen
  have hdrop8 : bs.drop 8 = ft.code :: (L ++ (P ++ rest)) := List.drop_left' hAlen
  have hdrop9 : bs.drop 9 = L ++ (P ++ rest) := by
    rw [hbs9]
    exact List.drop_left' (by simp [hAlen])
  have hdrop13 : bs.drop 13 = P ++ rest := by
    rw [hbs13]
    exact List.drop_left' (by simp [hAlen, hLlen])
  have hcid2 : bytesToNat (bs.take 8) = cid := by
    rw [htake8, hA, bytesToNat_natToBytes]
    exact Nat.mod_eq_of_lt (by norm_num at hcid ⊢; omega)
  have hft : FrameType.ofCode (bytesToNat ((bs.drop 8).take 1)) = some ft := by
    rw [hdrop8]
    simp only [List.take_succ_cons, List.take_zero]
    rw [bytesToNat_single]
    exact ofCode_code ft
  have hlen4 : bytesToNat ((bs.drop 9).take 4) = P.length := by
    rw [hdrop9, List.take_left' hLlen, hL, bytesToNat_natToBytes]
    exact Nat.mod_eq_of_lt (by norm_num at hP ⊢; omega)
  have hnotshort : ¬ bs.length < 13 := by omega
  have hnottrunc : ¬ (bs.drop 13).length < P.length := by
    rw [hdrop13]
    simp
  have hnt : ¬ (P ++ rest).length < P.length := by
    rw [List.length_append]; omega
  rw [decodeFrame.eq_def, if_neg hnotshort, hft]
  simp only [hlen4, hcid2, hdrop13]
  rw [if_neg hnt, List.take_left, List.drop_left]

/-- Claim C4: the frame codec (modelled from the spec, since no codec exists
in the source tree) losslessly round-trips every frame: encoding lays out
correlationID (8 bytes), frameType (1 byte), length (4 bytes), then the
payload; there are exactly 8 distinct frame type codes; and decoding the
encoding of any well-formed frame (correlationID below 2 to the 64, payload
length below 2 to the 32) yields the frame back, together with any trailing
bytes. -/
theorem frame_codec_roundtrip (f : Frame) (rest : List Nat)
    (hcid : f.correlationID < 2 ^ 64) (hlen : f.payload.length < 2 ^ 32) :
    decodeFrame (encodeFrame f ++ rest) = some (f, rest) ∧
    encodeFrame f = natToBytes 8 f.correlationID
      ++ f.frameType.code :: (natToBytes 4 f.payload.length ++ f.payload) ∧
    (∀ t₁ t₂ : FrameType, t₁.code = t₂.code → t₁ = t₂) ∧
    ([FrameType.requestHeader, FrameType.requestBodyChunk, FrameType.requestEnd,
      FrameType.responseHeader, FrameType.responseBodyChunk, FrameType.responseEnd,
      FrameType.cancel, FrameType.errorFrame].map FrameType.code).Nodup ∧
    ([FrameType.requestHeader, FrameType.requestBodyChunk, FrameType.requestEnd,
      FrameType.responseHeader, FrameType.responseBodyChunk, FrameType.responseEnd,
      FrameType.cancel, FrameType.errorFrame].map FrameType.code).length = 8 := by
  refine ⟨?_, rfl, ?_, by decide, rfl⟩
  case refine_2 =>
    intro t₁ t₂ h
    cases t₁ <;> cases t₂ <;> simp_all [FrameType.code]
  calc decodeFrame (encodeFrame f ++ rest)
      = decodeFrame (natToBytes 8 f.correlationID
          ++ f.frameType.code :: (natToBytes 4 f.payload.length ++ (f.payload ++ rest))) := by
        simp [encodeFrame, List.append_assoc]
    _ = some (⟨f.correlationID, f.frameType, f.payload⟩, rest) :=
        decodeFrame_layout f.correlationID f.frameType f.payload rest hcid hlen
    _ = some (f, rest) := rfl

/-- Witness for C4 at a concrete frame with trailing bytes. -/
theorem frame_codec_roundtrip_witness :
    (5 : Nat) < 2 ^ 64 ∧
    ((Frame.mk 5 FrameType.cancel [7, 9]).payload.length < 2 ^ 32) ∧
    decodeFrame (encodeFrame (Frame.mk 5 FrameType.cancel [7, 9]) ++ [1])
      = some (Frame.mk 5 FrameType.cancel [7, 9], [1]) :=
  ⟨by norm_num, by norm_num,
    (frame_codec_roundtrip (Frame.mk 5 FrameType.cancel [7, 9]) [1]
      (by norm_num) (by norm_num)).1⟩
